import Mathlib

/-!
Shallow embedding of `src/metadata.py` (BAG zipcodes sync script).

The script synchronizes a remote BAG archive into a Postgres table:
`check_and_update_bag_data` issues a HEAD request, compares the remote
`Last-Modified` header against a stored watermark, and when a refresh is
needed downloads the archive, runs an external conversion pipeline, and
replaces the contents of the `gov_data` table via `update_gov_data_table`,
finally upserting the new watermark.

External collaborators (HTTP, `datetime.strptime`, `zipfile` self-test, the
conversion subprocesses, pandas CSV parsing, row-level sink acceptance) are
modelled as data supplied in an `Env` record; the script's own control flow,
state mutation and transaction handling are translated directly.
-/

/-- Cell values of the tabular export (pandas cell rendered for the sink). -/
abbrev Val := String

/-- A row of the tabular export: column-name/value pairs.
`pandas` rows are indexed by column name (`row[col]`). -/
structure Row where
  cells : List (String × Val)
deriving Repr, DecidableEq

/-- `row[col]`: name-based cell access; `none` models the `KeyError` raised
when the column is absent from the row. -/
def Row.val (r : Row) (c : String) : Option Val :=
  r.cells.lookup c

/-- Result of `pd.read_csv`: the column list and the rows. -/
structure Df where
  columns : List String
  rows : List Row
deriving Repr, DecidableEq

/-- Durable database state: the live column set of `gov_data` (in the
iteration order produced by the `information_schema` query), the committed
contents of `gov_data` (each stored row keeps the name→value binding the
INSERT statement established), and the `metadata` table's
`'last_modified'` value. -/
structure Db where
  govCols : List String
  govData : List (List (String × Val))
  watermark : Option String
deriving Repr, DecidableEq

/-- Failure kinds, one per raise site of the script (the Python code raises
plain `Exception`/`ValueError`/`KeyError`; the spec names the categories). -/
inductive Err where
  /-- non-success HTTP status on HEAD or GET -/
  | fetchError
  /-- `Last-Modified` header missing, or it fails `strptime` -/
  | metadataError
  /-- `strptime` `ValueError` on the stored watermark string (line 192) -/
  | storedParseError
  /-- `git clone` / `git pull` subprocess failure -/
  | cloneError
  /-- `update_config` failure (`config.py` missing) -/
  | configError
  /-- conversion subprocess (`import_bag.py` / `export_to_csv.py`) failure -/
  | conversionError
  /-- `pd.read_csv` failure on the export file -/
  | parseError
  /-- `row[col]` raised `KeyError`: a destination column absent from a row -/
  | keyError
  /-- the sink rejected a row INSERT -/
  | loadError
deriving Repr, DecidableEq

/-- `tuple(row[col] for col in db_columns)` (line 160): the row's values in
destination-column order, each bound by column NAME; `none` models the
`KeyError` when some destination column is missing from the row. -/
def rowValues (dbCols : List String) (r : Row) : Option (List Val) :=
  dbCols.mapM (fun c => r.val c)

/-- The insert loop of lines 159–166 over the dataframe rows, after the
TRUNCATE: builds the pending (in-transaction) contents of `gov_data`, or
stops at the first failing row. `insOk i vs` is the sink's verdict on
inserting values `vs` as the `i`-th row (type mismatch etc.). Each inserted
row records the name→value binding of the INSERT column list. -/
def insertRows (dbCols : List String) (insOk : Nat → List Val → Bool) :
    List Row → Nat → Except Err (List (List (String × Val)))
  | [], _ => .ok []
  | r :: rs, i =>
    match rowValues dbCols r with
    | none => .error .keyError
    | some vs =>
      if insOk i vs then
        match insertRows dbCols insOk rs (i + 1) with
        | .ok rest => .ok ((dbCols.zip vs) :: rest)
        | .error e => .error e
      else .error .loadError

deriving instance DecidableEq for Except

/-- Outcome of one `update_gov_data_table` call, with the transaction and
connection bookkeeping of its `try`/`except`/`finally` made explicit. -/
structure LoadResult where
  outcome : Except Err Unit
  db : Db
  committed : Bool
  rolledBack : Bool
  connClosed : Bool
deriving Repr, DecidableEq

/-- `update_gov_data_table` (lines 126–175). Opens its own connection, reads
the CSV (`csvDf = none` models a `pd.read_csv` exception), computes
`csv_columns` and `db_columns` — the structural-change notification block
(lines 143–152) is commented out in the source, so no drift condition is
raised — then TRUNCATEs and re-inserts inside the connection's transaction:
`conn.commit()` on success, `conn.rollback()` on any exception (leaving the
durable table untouched, since TRUNCATE and the INSERTs were pending), and
`conn.close()` in the `finally` on every path. -/
def update_gov_data_table (db : Db) (csvDf : Option Df)
    (insOk : Nat → List Val → Bool) : LoadResult :=
  match csvDf with
  | none =>
      { outcome := .error .parseError, db := db
        committed := false, rolledBack := true, connClosed := true }
  | some df =>
      match insertRows db.govCols insOk df.rows 0 with
      | .ok newRows =>
          { outcome := .ok (), db := { db with govData := newRows }
            committed := true, rolledBack := false, connClosed := true }
      | .error e =>
          { outcome := .error e, db := db
            committed := false, rolledBack := true, connClosed := true }

/-- `zip_file_is_valid` (lines 61–68): the archive file exists, has non-zero
size, and passes the `zipfile` self-test (`testzip() is None`, supplied as
the external predicate `validZip`). -/
def zip_file_is_valid (archive : Option String) (validZip : String → Bool) : Bool :=
  match archive with
  | none => false
  | some content => decide (0 < content.length) && validZip content

/-- External-world inputs of one sync run: HTTP responses, the calendar
parser, the zip self-test, the conversion collaborator's behaviour, the
parsed CSV it produces, the sink's row acceptance, and the `DEBUG` flag
read from the environment (line 18). Functions of the archive content model
collaborators whose behaviour depends on the downloaded bytes. -/
structure Env where
  /-- status of the HEAD request on `BAG_URL` -/
  headStatus : Nat
  /-- the `Last-Modified` response header, if present -/
  lastModifiedHeader : Option String
  /-- `datetime.strptime(s, "%a, %d %b %Y %H:%M:%S GMT")` as a point on the
  calendar time line; `none` models the `ValueError` on a non-matching
  string. -/
  parse : String → Option Int
  /-- status of the GET request on `BAG_URL` -/
  getStatus : Nat
  /-- body of the GET response (the archive bytes) -/
  body : String
  /-- `zipfile` self-test on given file content -/
  validZip : String → Bool
  /-- `git clone` / `git pull` succeeds -/
  cloneOk : Bool
  /-- `update_config` succeeds (`config.py` present) -/
  configOk : Bool
  /-- both conversion subprocesses exit with status 0, per archive content -/
  convertOk : String → Bool
  /-- `pd.read_csv` result on the export produced from given archive content -/
  csv : String → Option Df
  /-- the sink's verdict on each row INSERT -/
  insOk : Nat → List Val → Bool
  /-- the `DEBUG` env flag -/
  debug : Bool

/-- Local mutable state a run starts from: the cached archive file
(`bag.zip`; `none` = absent) and the database. -/
structure St where
  archive : Option String
  db : Db
deriving Repr, DecidableEq

/-- Observable external requests/calls a run makes, in order. -/
inductive Eff where
  | headReq
  | getReq
  | cloneCall
  | configCall
  | convertCall
  | loadCall
deriving Repr, DecidableEq

/-- Outcome of one coordinator run: the early return at line 195, the full
pipeline completing, or an uncaught exception. -/
inductive Outcome where
  | upToDate
  | refreshed
  | failed (e : Err)
deriving Repr, DecidableEq

/-- A run's outcome together with the state it leaves and the external
requests it issued. -/
structure RunResult where
  outcome : Outcome
  st : St
  trace : List Eff
deriving Repr, DecidableEq

/-- Lines 190–195: the up-to-date check. `.ok true` means the early return
fires (skip the refresh); `.ok false` means proceed with the download; the
error is the uncaught `ValueError` when the stored watermark string does
not match the `strptime` format (line 192). -/
def skipRefresh (parse : String → Option Int) (remoteTs : Int)
    (stored : Option String) (archive : Option String)
    (validZip : String → Bool) : Except Err Bool :=
  match stored with
  | none => .ok false
  | some s =>
    match parse s with
    | none => .error .storedParseError
    | some ts => .ok (decide (remoteTs ≤ ts) && zip_file_is_valid archive validZip)

/-- `check_and_update_bag_data` (lines 178–205): HEAD request and status
check; `Last-Modified` extraction and parse; the up-to-date check; then
download (`download_file_with_progress`, which writes the body to `bag.zip`
after its own status check and performs no further validation), clone,
config update, conversion, table load, and finally the watermark upsert
(`update_last_modified_in_db`, which commits immediately on the
coordinator's connection). Any stage failure propagates out with the
state reached so far; the `finally` only closes the coordinator's
connection. -/
def check_and_update_bag_data (env : Env) (st : St) : RunResult :=
  if env.headStatus ≠ 200 then
    ⟨.failed .fetchError, st, [.headReq]⟩
  else
    match env.lastModifiedHeader with
    | none => ⟨.failed .metadataError, st, [.headReq]⟩
    | some hdr =>
      match env.parse hdr with
      | none => ⟨.failed .metadataError, st, [.headReq]⟩
      | some remoteTs =>
        match skipRefresh env.parse remoteTs st.db.watermark st.archive env.validZip with
        | .error e => ⟨.failed e, st, [.headReq]⟩
        | .ok true => ⟨.upToDate, st, [.headReq]⟩
        | .ok false =>
          if env.getStatus ≠ 200 then
            ⟨.failed .fetchError, st, [.headReq, .getReq]⟩
          else
            if ¬ env.cloneOk then
              ⟨.failed .cloneError, ⟨some env.body, st.db⟩, [.headReq, .getReq, .cloneCall]⟩
            else if ¬ env.configOk then
              ⟨.failed .configError, ⟨some env.body, st.db⟩,
                [.headReq, .getReq, .cloneCall, .configCall]⟩
            else if ¬ env.convertOk env.body then
              ⟨.failed .conversionError, ⟨some env.body, st.db⟩,
                [.headReq, .getReq, .cloneCall, .configCall, .convertCall]⟩
            else
              match (update_gov_data_table st.db (env.csv env.body) env.insOk).outcome with
              | .error e =>
                ⟨.failed e,
                  ⟨some env.body, (update_gov_data_table st.db (env.csv env.body) env.insOk).db⟩,
                  [.headReq, .getReq, .cloneCall, .configCall, .convertCall, .loadCall]⟩
              | .ok _ =>
                ⟨.refreshed,
                  ⟨some env.body,
                    { (update_gov_data_table st.db (env.csv env.body) env.insOk).db with
                        watermark := some hdr }⟩,
                  [.headReq, .getReq, .cloneCall, .configCall, .convertCall, .loadCall]⟩

/-! ### Concrete fixtures used by counterexamples and witnesses -/

/-- A sink that accepts every row INSERT. -/
def allOk : Nat → List Val → Bool := fun _ _ => true

/-- A sink that rejects the row at index 1 (the second row). -/
def failSecond : Nat → List Val → Bool := fun i _ => decide (i ≠ 1)

/-- Export with columns `{a,b,c}` (two rows). -/
def dfDrift : Df :=
  ⟨["a", "b", "c"],
   [⟨[("a", "1"), ("b", "2"), ("c", "3")]⟩,
    ⟨[("a", "4"), ("b", "5"), ("c", "6")]⟩]⟩

/-- Destination with live columns `{a,b}` and one pre-existing row. -/
def dbDrift : Db := ⟨["a", "b"], [[("a", "x"), ("b", "y")]], none⟩

/-- Export with three rows over column `a`. -/
def df3 : Df := ⟨["a"], [⟨[("a", "1")]⟩, ⟨[("a", "2")]⟩, ⟨[("a", "3")]⟩]⟩

/-- Destination with live column `a` and two pre-existing rows. -/
def db3 : Db := ⟨["a"], [[("a", "old1")], [("a", "old2")]], none⟩

/-- Export over columns `(a, b)` in that order. -/
def dfAB : Df := ⟨["a", "b"], [⟨[("a", "1"), ("b", "2")]⟩]⟩

/-- The same export with its columns (and each row's cells) reordered. -/
def dfBA : Df := ⟨["b", "a"], [⟨[("b", "2"), ("a", "1")]⟩]⟩

/-- Destination with live columns `{a,b}`, empty. -/
def dbAB : Db := ⟨["a", "b"], [], none⟩

/-- The remote `Last-Modified` header used by the run-level fixtures. -/
def hdrStr : String := "Wed, 01 Jan 2025 00:00:00 GMT"

/-- A calendar parser accepting exactly `hdrStr`. -/
def parse1 : String → Option Int := fun s => if s = hdrStr then some 100 else none

/-- Export with the single column `a` and one row. -/
def dfA : Df := ⟨["a"], [⟨[("a", "1")]⟩]⟩

/-- A fully healthy environment: successful HEAD and GET, parseable header,
valid archive body `"PK"`, succeeding collaborators, accepting sink. -/
def envOkBase : Env :=
  { headStatus := 200, lastModifiedHeader := some hdrStr, parse := parse1
    getStatus := 200, body := "PK", validZip := fun s => decide (s = "PK")
    cloneOk := true, configOk := true, convertOk := fun _ => true
    csv := fun _ => some dfA, insOk := allOk, debug := false }

/-- Initial state: no cached archive, empty destination, no watermark. -/
def stEmpty : St := ⟨none, ⟨["a"], [], none⟩⟩

/-- Environment whose GET body is not a valid archive (the zip self-test
rejects it) while everything else succeeds. -/
def envBadZip : Env := { envOkBase with body := "garbage", validZip := fun _ => false }

/-- Environment whose HEAD response has no `Last-Modified` header. -/
def envNoHdr : Env := { envOkBase with lastModifiedHeader := none }

/-- Environment whose `Last-Modified` header does not parse. -/
def envBadHdr : Env :=
  { envOkBase with lastModifiedHeader := some "not-a-date" }

/-- State with a valid cached archive but an unparseable stored watermark. -/
def stBadWm : St := ⟨some "PK", ⟨["a"], [], some "garbage"⟩⟩

/-- Environment in which the table load fails on every row INSERT. -/
def envLoadFail : Env := { envOkBase with insOk := fun _ _ => false }

/-! ### Helper lemmas about the loader -/

/-- When every destination column is present in every row and the sink
accepts every INSERT, the insert loop succeeds and produces exactly the
rows projected onto the destination columns. -/
theorem insertRows_ok_of (dbCols : List String) (insOk : Nat → List Val → Bool)
    (hins : ∀ i vs, insOk i vs = true) (rows : List Row) :
    ∀ (i : Nat), (∀ r ∈ rows, (rowValues dbCols r).isSome = true) →
      insertRows dbCols insOk rows i
        = .ok (rows.map fun r => dbCols.zip ((rowValues dbCols r).getD [])) := by
  induction rows with
  | nil => intro i _; simp [insertRows]
  | cons r rs ih =>
    intro i h
    have hr := h r (List.mem_cons_self r rs)
    obtain ⟨vs, hvs⟩ := Option.isSome_iff_exists.mp hr
    have hrest := ih (i + 1) (fun s hs => h s (List.mem_cons_of_mem r hs))
    simp [insertRows, hvs, hins i vs, hrest]

/-- The insert loop only ever fails with `keyError` or `loadError`. -/
theorem insertRows_error_kinds (dbCols : List String)
    (insOk : Nat → List Val → Bool) (rows : List Row) :
    ∀ (i : Nat) (e : Err), insertRows dbCols insOk rows i = .error e →
      e = .keyError ∨ e = .loadError := by
  induction rows with
  | nil => intro i e h; simp [insertRows] at h
  | cons r rs ih =>
    intro i e h
    rw [insertRows] at h
    cases hv : rowValues dbCols r with
    | none => rw [hv] at h; simp at h; simp [h]
    | some vs =>
      rw [hv] at h
      by_cases hok : insOk i vs = true
      · simp [hok] at h
        cases hrec : insertRows dbCols insOk rs (i + 1) with
        | ok rest => rw [hrec] at h; simp at h
        | error e2 => rw [hrec] at h; simp at h; exact h ▸ ih (i + 1) e2 hrec
      · simp [hok] at h; simp [h]

/-- A failed load leaves the durable database untouched (the rollback). -/
theorem update_gov_error_db (db : Db) (csvDf : Option Df)
    (insOk : Nat → List Val → Bool) (e : Err)
    (h : (update_gov_data_table db csvDf insOk).outcome = .error e) :
    (update_gov_data_table db csvDf insOk).db = db := by
  unfold update_gov_data_table at h ⊢
  cases csvDf with
  | none => rfl
  | some df =>
    cases hrec : insertRows db.govCols insOk df.rows 0 with
    | ok rest => simp [hrec] at h
    | error e2 => simp [hrec]

/-- A failed load can only carry a parse, key, or row-insert error. -/
theorem update_gov_error_kinds (db : Db) (csvDf : Option Df)
    (insOk : Nat → List Val → Bool) (e : Err)
    (h : (update_gov_data_table db csvDf insOk).outcome = .error e) :
    e = .parseError ∨ e = .keyError ∨ e = .loadError := by
  unfold update_gov_data_table at h
  cases csvDf with
  | none => simp at h; simp [h]
  | some df =>
    cases hrec : insertRows db.govCols insOk df.rows 0 with
    | ok rest => simp [hrec] at h
    | error e2 =>
      simp [hrec] at h
      exact Or.inr (h ▸ insertRows_error_kinds db.govCols insOk df.rows 0 e2 hrec)

/-- `rowValues` depends only on the name→value binding of the row, never on
the order of its cells. -/
theorem rowValues_congr (dbCols : List String) (r s : Row)
    (h : ∀ c ∈ dbCols, r.val c = s.val c) :
    rowValues dbCols r = rowValues dbCols s := by
  induction dbCols with
  | nil => rfl
  | cons c cs ih =>
    unfold rowValues at *
    rw [List.mapM_cons, List.mapM_cons, h c (List.mem_cons_self c cs),
      ih (fun d hd => h d (List.mem_cons_of_mem c hd))]

/-- The insert loop depends only on each row's name→value binding over the
destination columns. -/
theorem insertRows_congr (dbCols : List String) (insOk : Nat → List Val → Bool)
    (rows1 rows2 : List Row)
    (h : List.Forall₂ (fun r s => ∀ c ∈ dbCols, r.val c = s.val c) rows1 rows2) :
    ∀ i, insertRows dbCols insOk rows1 i = insertRows dbCols insOk rows2 i := by
  induction h with
  | nil => intro i; rfl
  | cons hrow hrest ih =>
    intro i
    rw [insertRows, insertRows, rowValues_congr dbCols _ _ hrow, ih (i + 1)]

/-! ### Claim theorems -/

/-- C1, counterexample. With export columns `{a,b,c}` and live destination
columns `{a,b}` — a genuine column-set drift — `update_gov_data_table`
raises no drift condition at all: it completes successfully and mutates the
destination (the pre-existing row is replaced), contradicting the claim
that the loader exposes `SchemaDriftDetected` and, under the default abort
policy, leaves the destination unmutated. -/
theorem C1_counterexample :
    ("c" ∈ dfDrift.columns ∧ "c" ∉ dbDrift.govCols) ∧
    (update_gov_data_table dbDrift (some dfDrift) allOk).outcome = .ok () ∧
    (update_gov_data_table dbDrift (some dfDrift) allOk).db.govData ≠ dbDrift.govData := by
  decide

/-- C1, amended: the drift-notification block is commented out in the
source, so on a column-set mismatch the loader reports no drift condition;
provided every destination column is present in each row and the sink
accepts the inserts, it truncates and reloads, committing each row
projected onto the destination columns (extra export columns silently
dropped). -/
theorem C1_theorem (db : Db) (df : Df) (insOk : Nat → List Val → Bool)
    (_hdrift : df.columns ≠ db.govCols)
    (hvals : ∀ r ∈ df.rows, (rowValues db.govCols r).isSome = true)
    (hins : ∀ i vs, insOk i vs = true) :
    (update_gov_data_table db (some df) insOk).outcome = .ok () ∧
    (update_gov_data_table db (some df) insOk).db.govData
      = df.rows.map (fun r => db.govCols.zip ((rowValues db.govCols r).getD [])) := by
  simp only [update_gov_data_table]
  rw [insertRows_ok_of db.govCols insOk hins df.rows 0 hvals]
  exact ⟨rfl, rfl⟩

/-- C1, witness for the amended theorem at the drift fixture. -/
theorem C1_witness :
    (update_gov_data_table dbDrift (some dfDrift) allOk).outcome = .ok () :=
  (C1_theorem dbDrift dfDrift allOk (by decide) (by decide) (fun _ _ => rfl)).1

/-- C2: if the insert loop fails on any row of the export, the committed
contents (hence also the row count) of `gov_data` after the attempt equal
its contents before the attempt — the TRUNCATE and the partial INSERTs were
pending in the transaction and are discarded by the rollback — and the
failure is surfaced. -/
theorem C2_theorem (db : Db) (df : Df) (insOk : Nat → List Val → Bool) (e : Err)
    (h : insertRows db.govCols insOk df.rows 0 = .error e) :
    (update_gov_data_table db (some df) insOk).db.govData = db.govData ∧
    (update_gov_data_table db (some df) insOk).db.govData.length = db.govData.length ∧
    (update_gov_data_table db (some df) insOk).outcome = .error e := by
  simp only [update_gov_data_table]
  rw [h]
  exact ⟨rfl, rfl, rfl⟩

/-- C2, witness: the sink rejects the second of three rows; the two
pre-existing destination rows survive untouched. -/
theorem C2_witness :
    (update_gov_data_table db3 (some df3) failSecond).db.govData = db3.govData :=
  (C2_theorem db3 df3 failSecond .loadError (by decide)).1

/-- C8: each inserted value is bound to its destination column by name
(`row[col]` per destination column), so two exports whose rows agree as
name→value bindings over the destination columns — e.g. one being a column
reordering of the other — produce identical load results. -/
theorem C8_theorem (db : Db) (df1 df2 : Df) (insOk : Nat → List Val → Bool)
    (h : List.Forall₂ (fun r s => ∀ c ∈ db.govCols, r.val c = s.val c) df1.rows df2.rows) :
    update_gov_data_table db (some df1) insOk = update_gov_data_table db (some df2) insOk := by
  simp only [update_gov_data_table]
  rw [insertRows_congr db.govCols insOk df1.rows df2.rows h 0]

/-- C8, witness: the export with columns `(a, b)` and its reordering
`(b, a)` load identically. -/
theorem C8_witness :
    update_gov_data_table dbAB (some dfAB) allOk
      = update_gov_data_table dbAB (some dfBA) allOk :=
  C8_theorem dbAB dfAB dfBA allOk (List.Forall₂.cons (by decide) List.Forall₂.nil)

/-- C9: on every exit path of `update_gov_data_table` the connection is
closed (the `finally`); the transaction commits exactly on full success and
on any exception is rolled back, leaving the durable database unchanged. -/
theorem C9_theorem (db : Db) (csvDf : Option Df) (insOk : Nat → List Val → Bool) :
    (update_gov_data_table db csvDf insOk).connClosed = true ∧
    ((update_gov_data_table db csvDf insOk).outcome = .ok () →
      (update_gov_data_table db csvDf insOk).committed = true ∧
      (update_gov_data_table db csvDf insOk).rolledBack = false) ∧
    (∀ e, (update_gov_data_table db csvDf insOk).outcome = .error e →
      (update_gov_data_table db csvDf insOk).rolledBack = true ∧
      (update_gov_data_table db csvDf insOk).committed = false ∧
      (update_gov_data_table db csvDf insOk).db = db) := by
  unfold update_gov_data_table
  cases csvDf with
  | none => simp
  | some df => cases hrec : insertRows db.govCols insOk df.rows 0 <;> simp [hrec]

/-- C9, witness: connection closed and rollback flagged on a failing load. -/
theorem C9_witness :
    (update_gov_data_table db3 (some df3) (fun _ _ => false)).connClosed = true ∧
    (update_gov_data_table db3 (some df3) (fun _ _ => false)).rolledBack = true :=
  ⟨(C9_theorem db3 (some df3) (fun _ _ => false)).1,
   ((C9_theorem db3 (some df3) (fun _ _ => false)).2.2 .loadError (by decide)).1⟩

/-- C10: the `DEBUG` flag is read (line 18) and mentioned in a log string
(line 197) but never used in any condition, so two runs identical except
for `DEBUG` produce the same outcome, the same final state, and the same
external requests. -/
theorem C10_theorem (env : Env) (b1 b2 : Bool) (st : St) :
    check_and_update_bag_data { env with debug := b1 } st
      = check_and_update_bag_data { env with debug := b2 } st := by
  cases env
  rfl

/-- C6: with a successful HEAD response, a missing or unparseable
`Last-Modified` header fails the run with the metadata error while the
state is untouched and the only external request issued is the HEAD — no
GET, no conversion call, no load call. -/
theorem C6_theorem (env : Env) (st : St)
    (h200 : env.headStatus = 200)
    (hhdr : env.lastModifiedHeader = none ∨
      ∃ h, env.lastModifiedHeader = some h ∧ env.parse h = none) :
    (check_and_update_bag_data env st).outcome = .failed .metadataError ∧
    (check_and_update_bag_data env st).st = st ∧
    (check_and_update_bag_data env st).trace = [.headReq] := by
  unfold check_and_update_bag_data
  rcases hhdr with h | ⟨hd, hh, hp⟩ <;> simp [h200, *]

/-- C6, witness: HEAD succeeds but no `Last-Modified` header is present. -/
theorem C6_witness :
    (check_and_update_bag_data envNoHdr stEmpty).outcome = .failed .metadataError :=
  (C6_theorem envNoHdr stEmpty rfl (Or.inl rfl)).1

/-- C3: the watermark is written only after the load succeeds — a refreshed
run sets it to exactly the remote's `Last-Modified` header string; any
failed run (each stage's failure surfaces as its own error kind) leaves the
stored watermark unchanged, and an up-to-date run changes nothing. -/
theorem C3_theorem (env : Env) (st : St) :
    ((check_and_update_bag_data env st).outcome = .refreshed →
      (check_and_update_bag_data env st).st.db.watermark = env.lastModifiedHeader) ∧
    (∀ e, (check_and_update_bag_data env st).outcome = .failed e →
      (check_and_update_bag_data env st).st.db.watermark = st.db.watermark) ∧
    ((check_and_update_bag_data env st).outcome = .upToDate →
      (check_and_update_bag_data env st).st = st) := by
  unfold check_and_update_bag_data
  repeat' split
  all_goals simp_all
  have hdb := update_gov_error_db st.db (env.csv env.body) env.insOk _ (by assumption)
  rw [hdb]

/-- C3, witness: a run whose load stage rejects every row leaves the (empty)
watermark unchanged. -/
theorem C3_witness :
    (check_and_update_bag_data envLoadFail stEmpty).st.db.watermark
      = stEmpty.db.watermark :=
  (C3_theorem envLoadFail stEmpty).2.1 .loadError (by decide)

/-! ### Run-level helper lemmas -/

/-- When the up-to-date check fires, the run returns immediately: state
unchanged, only the HEAD request issued. -/
theorem run_skips (env : Env) (st : St) (hdr : String) (rts : Int)
    (h200 : env.headStatus = 200)
    (hh : env.lastModifiedHeader = some hdr) (hp : env.parse hdr = some rts)
    (hskip : skipRefresh env.parse rts st.db.watermark st.archive env.validZip = .ok true) :
    check_and_update_bag_data env st = ⟨.upToDate, st, [.headReq]⟩ := by
  unfold check_and_update_bag_data
  simp [h200, hh, hp, hskip]

/-- When the up-to-date check does not fire, the run proceeds with the
refresh: a GET for the archive body is issued and the outcome is never
`upToDate`. -/
theorem run_proceeds (env : Env) (st : St) (hdr : String) (rts : Int)
    (h200 : env.headStatus = 200)
    (hh : env.lastModifiedHeader = some hdr) (hp : env.parse hdr = some rts)
    (hskip : skipRefresh env.parse rts st.db.watermark st.archive env.validZip = .ok false) :
    (check_and_update_bag_data env st).outcome ≠ .upToDate ∧
    .getReq ∈ (check_and_update_bag_data env st).trace := by
  unfold check_and_update_bag_data
  simp [h200, hh, hp, hskip]
  repeat' split
  all_goals simp_all

/-- A refreshed run implies a successful HEAD, a parseable header, and a
final state whose archive is the downloaded body and whose watermark is the
header string. -/
theorem run_refreshed_inv (env : Env) (st : St)
    (h : (check_and_update_bag_data env st).outcome = .refreshed) :
    env.headStatus = 200 ∧
    ∃ hdr rts, env.lastModifiedHeader = some hdr ∧ env.parse hdr = some rts ∧
      (check_and_update_bag_data env st).st.archive = some env.body ∧
      (check_and_update_bag_data env st).st.db.watermark = some hdr := by
  unfold check_and_update_bag_data at h ⊢
  split at h
  · simp at h
  · next h200 =>
    split at h
    · simp at h
    · next hdr hh =>
      split at h
      · simp at h
      · next rts hp =>
        split at h
        · next e hskip => simp at h
        · next hskip => simp at h
        · next hskip =>
          split at h
          · simp at h
          · next hget =>
            split at h
            · simp at h
            · next hclone =>
              split at h
              · simp at h
              · next hconfig =>
                split at h
                · simp at h
                · next hconvert =>
                  split at h
                  · next e heq => simp at h
                  · next u heq =>
                    have h200' : env.headStatus = 200 := not_ne_iff.mp h200
                    refine ⟨h200', hdr, rts, hh, hp, ?_, ?_⟩ <;>
                      simp [h200', hh, hp, hskip, hget, hclone, hconfig, hconvert, heq]

/-- An up-to-date run implies the skip condition held, and the run was a
pure no-op: state unchanged, only the HEAD issued. -/
theorem run_upToDate_inv (env : Env) (st : St)
    (h : (check_and_update_bag_data env st).outcome = .upToDate) :
    check_and_update_bag_data env st = ⟨.upToDate, st, [.headReq]⟩ ∧
    env.headStatus = 200 ∧
    ∃ hdr rts, env.lastModifiedHeader = some hdr ∧ env.parse hdr = some rts ∧
      skipRefresh env.parse rts st.db.watermark st.archive env.validZip = .ok true := by
  unfold check_and_update_bag_data at h
  split at h
  · simp at h
  · next h200 =>
    split at h
    · simp at h
    · next hdr hh =>
      split at h
      · simp at h
      · next rts hp =>
        split at h
        · next e hskip => simp at h
        · next hskip =>
          have h200' : env.headStatus = 200 := not_ne_iff.mp h200
          exact ⟨run_skips env st hdr rts h200' hh hp hskip, h200', hdr, rts, hh, hp, hskip⟩
        · next hskip =>
          exfalso
          split at h
          · simp at h
          · next hget =>
            split at h
            · simp at h
            · next hclone =>
              split at h
              · simp at h
              · next hconfig =>
                split at h
                · simp at h
                · next hconvert =>
                  split at h <;> simp_all

/-- C4, counterexample. With a valid archive and a stored watermark that
does not parse in the fixed calendar format, the three skip conditions are
violated (the "remote ≤ stored" comparison cannot hold), yet the run does
NOT trigger a refresh: it aborts with the uncaught `strptime` failure and
never issues the GET for the archive body — contradicting "any violation
of these three conditions triggers a refresh". -/
theorem C4_counterexample :
    (envOkBase.parse "garbage" = none ∧ stBadWm.db.watermark = some "garbage" ∧
      zip_file_is_valid stBadWm.archive envOkBase.validZip = true) ∧
    (check_and_update_bag_data envOkBase stBadWm).outcome = .failed .storedParseError ∧
    .getReq ∉ (check_and_update_bag_data envOkBase stBadWm).trace := by
  decide

/-- C4, amended: given a successful HEAD whose header parses, and a stored
watermark that — when present — parses, the run skips (returns `upToDate`)
exactly when a stored watermark exists, the parsed remote timestamp is ≤
the parsed stored watermark, and the local archive passes the integrity
check; and whenever that conjunction fails, a refresh is triggered (the GET
for the archive body is issued). An unparseable stored watermark instead
aborts the run with the parse failure before any refresh. -/
theorem C4_theorem (env : Env) (st : St) (hdr : String) (rts : Int)
    (h200 : env.headStatus = 200)
    (hh : env.lastModifiedHeader = some hdr) (hp : env.parse hdr = some rts)
    (hstored : ∀ s, st.db.watermark = some s → (env.parse s).isSome = true) :
    ((check_and_update_bag_data env st).outcome = .upToDate ↔
      ((∃ s ts, st.db.watermark = some s ∧ env.parse s = some ts ∧ rts ≤ ts) ∧
        zip_file_is_valid st.archive env.validZip = true)) ∧
    (¬ ((∃ s ts, st.db.watermark = some s ∧ env.parse s = some ts ∧ rts ≤ ts) ∧
        zip_file_is_valid st.archive env.validZip = true) →
      .getReq ∈ (check_and_update_bag_data env st).trace) := by
  cases hwm : st.db.watermark with
  | none =>
    have hskip : skipRefresh env.parse rts st.db.watermark st.archive env.validZip
        = .ok false := by simp [skipRefresh, hwm]
    have hpr := run_proceeds env st hdr rts h200 hh hp hskip
    constructor
    · constructor
      · intro hu; exact absurd hu hpr.1
      · rintro ⟨⟨s, ts, hs, _⟩, _⟩; exact Option.noConfusion hs
    · intro _; exact hpr.2
  | some s =>
    obtain ⟨ts, hts⟩ := Option.isSome_iff_exists.mp (hstored s hwm)
    have hskip : skipRefresh env.parse rts st.db.watermark st.archive env.validZip
        = .ok (decide (rts ≤ ts) && zip_file_is_valid st.archive env.validZip) := by
      simp [skipRefresh, hwm, hts]
    cases hcond : decide (rts ≤ ts) && zip_file_is_valid st.archive env.validZip with
    | true =>
      rw [hcond] at hskip
      have heq := run_skips env st hdr rts h200 hh hp hskip
      have hboth := hcond
      simp only [Bool.and_eq_true, decide_eq_true_eq] at hboth
      obtain ⟨hrle, hzip⟩ := hboth
      rw [heq]
      constructor
      · constructor
        · intro _; exact ⟨⟨s, ts, rfl, hts, hrle⟩, hzip⟩
        · intro _; rfl
      · intro hneg; exact absurd ⟨⟨s, ts, rfl, hts, hrle⟩, hzip⟩ hneg
    | false =>
      rw [hcond] at hskip
      have hpr := run_proceeds env st hdr rts h200 hh hp hskip
      constructor
      · constructor
        · intro hu; exact absurd hu hpr.1
        · rintro ⟨⟨s2, ts2, hs2, hts2, hle2⟩, hzip2⟩
          obtain rfl := Option.some.inj hs2
          rw [hts] at hts2
          obtain rfl := Option.some.inj hts2
          rw [decide_eq_true hle2, hzip2] at hcond
          simp at hcond
      · intro _; exact hpr.2

/-- C4, witness for the amended theorem: no stored watermark, so the skip
conjunction fails and the run issues the archive GET. -/
theorem C4_witness :
    .getReq ∈ (check_and_update_bag_data envOkBase stEmpty).trace := by
  refine (C4_theorem envOkBase stEmpty hdrStr 100 rfl rfl (by decide) ?_).2 ?_
  · intro s hs; exact Option.noConfusion hs
  · rintro ⟨⟨s, ts, hs, _⟩, _⟩; exact Option.noConfusion hs

/-- C5, counterexample. The GET succeeds and the body `"garbage"` — which
the integrity self-test rejects — is written to the archive path, yet
`download_file_with_progress` performs no re-check after writing: the run
completes as `refreshed` with the invalid file cached instead of failing
with the fetch error. -/
theorem C5_counterexample :
    (check_and_update_bag_data envBadZip stEmpty).outcome = .refreshed ∧
    (check_and_update_bag_data envBadZip stEmpty).st.archive = some "garbage" ∧
    envBadZip.validZip "garbage" = false := by
  decide

/-- C5, amended: after a successful GET the response body is written to the
archive path and NOT re-checked — the run proceeds directly to the
conversion stages regardless of the body's validity, and no failure after
the write is ever reported as a fetch error (an invalid archive surfaces,
if at all, as a conversion- or load-stage failure). -/
theorem C5_theorem (env : Env) (st : St) (hdr : String) (rts : Int)
    (h200 : env.headStatus = 200)
    (hh : env.lastModifiedHeader = some hdr) (hp : env.parse hdr = some rts)
    (hskip : skipRefresh env.parse rts st.db.watermark st.archive env.validZip = .ok false)
    (hget : env.getStatus = 200) :
    (check_and_update_bag_data env st).st.archive = some env.body ∧
    (check_and_update_bag_data env st).outcome ≠ .failed .fetchError := by
  unfold check_and_update_bag_data
  simp [h200, hh, hp, hskip, hget]
  repeat' split
  all_goals simp_all
  have hk := update_gov_error_kinds st.db (env.csv env.body) env.insOk _ (by assumption)
  rcases hk with h1 | h1 | h1 <;> simp [h1]

/-- C5, witness for the amended theorem: a healthy environment with no
stored watermark; the downloaded body is cached unchecked. -/
theorem C5_witness :
    (check_and_update_bag_data envOkBase stEmpty).st.archive = some envOkBase.body :=
  (C5_theorem envOkBase stEmpty hdrStr 100 rfl rfl (by decide) (by decide) rfl).1

/-- C7: if a run of the coordinator does not fail and the remote body is a
well-formed non-empty archive, then an immediately following run against
the unchanged environment is a no-op: it returns `upToDate`, issues only
the HEAD request (no GET for the archive body), and leaves the state
untouched. -/
theorem C7_theorem (env : Env) (st : St)
    (h1 : (check_and_update_bag_data env st).outcome = .upToDate ∨
      (check_and_update_bag_data env st).outcome = .refreshed)
    (hzip : env.validZip env.body = true) (hbody : 0 < env.body.length) :
    (check_and_update_bag_data env (check_and_update_bag_data env st).st).outcome
      = .upToDate ∧
    (check_and_update_bag_data env (check_and_update_bag_data env st).st).trace
      = [.headReq] ∧
    (check_and_update_bag_data env (check_and_update_bag_data env st).st).st
      = (check_and_update_bag_data env st).st := by
  rcases h1 with h | h
  · obtain ⟨heq, h200, hdr, rts, hh, hp, hskip⟩ := run_upToDate_inv env st h
    rw [heq]
    have heq2 := run_skips env st hdr rts h200 hh hp hskip
    rw [heq2]
    exact ⟨rfl, rfl, rfl⟩
  · obtain ⟨h200, hdr, rts, hh, hp, harch, hwm⟩ := run_refreshed_inv env st h
    have hskip2 : skipRefresh env.parse rts
        (check_and_update_bag_data env st).st.db.watermark
        (check_and_update_bag_data env st).st.archive env.validZip = .ok true := by
      rw [hwm, harch]
      simp [skipRefresh, hp, zip_file_is_valid, hzip, hbody]
    have heq2 := run_skips env (check_and_update_bag_data env st).st hdr rts
      h200 hh hp hskip2
    rw [heq2]
    exact ⟨rfl, rfl, rfl⟩

/-- C7, witness: a healthy first run (it refreshes) followed by a second
run that is up-to-date with only the HEAD issued. -/
theorem C7_witness :
    (check_and_update_bag_data envOkBase
        (check_and_update_bag_data envOkBase stEmpty).st).outcome = .upToDate ∧
    (check_and_update_bag_data envOkBase
        (check_and_update_bag_data envOkBase stEmpty).st).trace = [.headReq] :=
  ⟨(C7_theorem envOkBase stEmpty (Or.inr (by decide)) (by decide) (by decide)).1,
   (C7_theorem envOkBase stEmpty (Or.inr (by decide)) (by decide) (by decide)).2.1⟩
